import Mathlib

/-!
Verification of the `matchers` module: a shallow embedding of
`src/matchers.py` (conditional-wildcard matcher objects) and proofs about it.

Modelling notes.
* Python runtime values that the claims exercise are embedded as `PyVal`
  (machine integers are unbounded in Python, so `Int` is exact).  A
  `uuid.UUID` object is embedded as `PyVal.uuidV s` where `s` is its
  canonical lowercase-hex-with-dashes string.
* The two module-level sentinel objects `_not_compared` and `_not_matched`
  together with "a real value" form a three-state field; we embed the
  `actual` attribute as the sum type `ActualState`, whose identity tests
  (`is` in Python) become constructor tests.
* Python code that can raise is embedded in `Except PyErr`; a validator
  that raises propagates its exception out of `__eq__`.
-/

inductive PyErr where
  | typeError
  | valueError
  | attributeError
deriving DecidableEq

inductive PyVal where
  | intV (n : Int)
  | boolV (b : Bool)
  | strV (s : String)
  | uuidV (s : String)
  | listV (xs : List PyVal)

mutual

/-- Python `==` on embedded values (no matcher on either side).
`True == 1` and `False == 0` hold in Python because `bool` is a subtype of
`int`; lists compare elementwise. -/
def pyEq : PyVal → PyVal → Bool
  | .intV a, .intV b => a == b
  | .intV a, .boolV b => a == (if b then (1 : Int) else 0)
  | .boolV a, .intV b => (if a then (1 : Int) else 0) == b
  | .boolV a, .boolV b => a == b
  | .strV a, .strV b => a == b
  | .uuidV a, .uuidV b => a == b
  | .listV a, .listV b => pyEqList a b
  | _, _ => false

def pyEqList : List PyVal → List PyVal → Bool
  | [], [] => true
  | x :: xs, y :: ys => pyEq x y && pyEqList xs ys
  | _, _ => false

end

mutual

/-- Python `<` on embedded values.  Numbers (incl. `bool`) compare
numerically, strings lexicographically, `uuid.UUID` by value (its canonical
fixed-width hex string gives the same order), lists lexicographically; any
other combination raises `TypeError`, as Python does. -/
def pyLt : PyVal → PyVal → Except PyErr Bool
  | .intV a, .intV b => .ok (decide (a < b))
  | .intV a, .boolV b => .ok (decide (a < (if b then (1 : Int) else 0)))
  | .boolV a, .intV b => .ok (decide ((if a then (1 : Int) else 0) < b))
  | .boolV a, .boolV b => .ok (decide ((if a then (1 : Int) else 0) < (if b then (1 : Int) else 0)))
  | .strV a, .strV b => .ok (decide (a < b))
  | .uuidV a, .uuidV b => .ok (decide (a < b))
  | .listV a, .listV b => pyLtList a b
  | _, _ => .error .typeError

def pyLtList : List PyVal → List PyVal → Except PyErr Bool
  | [], [] => .ok false
  | [], _ :: _ => .ok true
  | _ :: _, [] => .ok false
  | x :: xs, y :: ys => if pyEq x y then pyLtList xs ys else pyLt x y

end

/-- Insert into an already-sorted list using Python `<`; on ties the new
element goes after the existing ones (Python sorts are stable). -/
def pyInsert (x : PyVal) : List PyVal → Except PyErr (List PyVal)
  | [] => .ok [x]
  | y :: ys =>
    match pyLt x y with
    | .error e => .error e
    | .ok true => .ok (x :: y :: ys)
    | .ok false =>
      match pyInsert x ys with
      | .error e => .error e
      | .ok r => .ok (y :: r)

/-- Python `sorted(...)` on an element list: a sorted permutation of the
input, `TypeError` when some needed comparison is unsupported.  (CPython
uses Timsort; for mixed lists whose failure depends on which pairs the
algorithm happens to compare, this insertion-sort model may raise on
slightly different inputs, but on lists drawn from one orderable type the
two agree exactly.) -/
def pySorted : List PyVal → Except PyErr (List PyVal)
  | [] => .ok []
  | x :: xs =>
    match pySorted xs with
    | .error e => .error e
    | .ok r => pyInsert x r

/-- Iterating a Python value, as `sorted(v)` does before sorting: lists give
their elements, strings their characters (1-character strings), anything
else in our value universe raises `TypeError` (not iterable). -/
def pyIterate : PyVal → Except PyErr (List PyVal)
  | .listV xs => .ok xs
  | .strV s => .ok (s.toList.map (fun c => PyVal.strV (String.mk [c])))
  | _ => .error .typeError

mutual

/-- Python `repr` of embedded values (string escaping is not modelled:
none of the strings the claims touch need escapes). -/
def pyRepr : PyVal → String
  | .intV n => toString n
  | .boolV b => if b then "True" else "False"
  | .strV s => "\x27" ++ s ++ "\x27"
  | .uuidV s => "UUID(\x27" ++ s ++ "\x27)"
  | .listV xs => "[" ++ pyReprList xs ++ "]"

def pyReprList : List PyVal → String
  | [] => ""
  | [x] => pyRepr x
  | x :: y :: ys => pyRepr x ++ ", " ++ pyReprList (y :: ys)

end

/-- `str` of the tuple collected by `AnyOf(*items)`, as interpolated by
`f"any of {items}"`. -/
def pyTupleStr : List PyVal → String
  | [] => "()"
  | [x] => "(" ++ pyRepr x ++ ",)"
  | xs => "(" ++ pyReprList xs ++ ")"

/-- The three-state `actual` attribute: the `_not_compared` sentinel, the
`_not_matched` sentinel, or a real captured value. -/
inductive ActualState where
  | notCompared
  | notMatched
  | matchedVal (v : PyVal)

/-- One `AnyIf` instance (or instance of a subclass that only supplies a
validator / overrides `_validator`).  `validate` is the bound `_validator`
method: for the base class it closes over the `validator` attribute (see
`AnyIf.init`), for `AnyUUID` it is the override.  It is fixed per instance
and never reassigned. -/
structure Matcher where
  validate : PyVal → Except PyErr Bool
  description : String
  actual : ActualState
  actuals : List PyVal

/-- `AnyIf.compared`: `self.actual is not _not_compared`. -/
def Matcher.compared (m : Matcher) : Bool :=
  match m.actual with
  | .notCompared => false
  | _ => true

/-- `AnyIf.matched`: `self.actual is not _not_compared and self.actual is
not _not_matched`. -/
def Matcher.matched (m : Matcher) : Bool :=
  match m.actual with
  | .matchedVal _ => true
  | _ => false

/-- `AnyIf.__eq__`: run `self._validator(other)` (an exception there
propagates before any attribute is assigned); on success store `other` in
`actual` and append it to `actuals`; on failure store the `_not_matched`
sentinel; return the validator result. -/
def Matcher.eq (m : Matcher) (other : PyVal) : Except PyErr (Bool × Matcher) :=
  match m.validate other with
  | .error e => .error e
  | .ok true => .ok (true, { m with actual := .matchedVal other, actuals := m.actuals ++ [other] })
  | .ok false => .ok (false, { m with actual := .notMatched })

/-- `AnyIf.__ne__`: `return not (self == other)` — the same comparison
(with its mutations), result negated; an exception propagates unchanged. -/
def Matcher.ne (m : Matcher) (other : PyVal) : Except PyErr (Bool × Matcher) :=
  match m.eq other with
  | .error e => .error e
  | .ok (b, m2) => .ok (!b, m2)

/-- `AnyIf.__repr__`: the `_not_compared` state renders
`f"<not compared: {self.description}>"`, the `_not_matched` state the bare
description, and a match the captured value's own `repr`.  (The source
branches on `self.compared` / `self.matched`, which is exactly this case
split on `actual`.) -/
def Matcher.reprStr (m : Matcher) : String :=
  match m.actual with
  | .notCompared => "<not compared: " ++ m.description ++ ">"
  | .notMatched => m.description
  | .matchedVal v => pyRepr v

/-- `AnyIf.__init__`: `description` is `super().__repr__()` (an
identity-based `<module.Class object at 0x...>` string, passed in here as
`objRepr` since each instance's differs), `validator` the argument, and —
as written in the source — `self.actual = _not_matched` (the
`_not_compared` sentinel is never assigned anywhere in the module).
The default `_validator` is `not self.validator or self.validator(other)`:
`True` when no validator was supplied, else the validator's verdict. -/
def AnyIf.init (validator : Option (PyVal → Except PyErr Bool)) (objRepr : String) : Matcher :=
  { validate := fun other =>
      match validator with
      | none => .ok true
      | some f => f other,
    description := objRepr,
    actual := .notMatched,
    actuals := [] }

/-- Placeholder for the identity-based default `repr` of a bare `AnyIf`
instance (the concrete address does not matter to any claim). -/
def anyIfObjRepr : String := "<matchers.AnyIf object at 0x7f2b5c3a1d30>"

def anyIntegerObjRepr : String := "<matchers.AnyInteger object at 0x7f2b5c3a1d31>"

def anyStringObjRepr : String := "<matchers.AnyString object at 0x7f2b5c3a1d32>"

def anyUUIDObjRepr : String := "<matchers.AnyUUID object at 0x7f2b5c3a1d33>"

def anyRegexObjRepr : String := "<matchers.AnyStringMatchingRegex object at 0x7f2b5c3a1d34>"

def unorderedObjRepr : String := "<matchers.Unordered object at 0x7f2b5c3a1d35>"

def anyOfObjRepr : String := "<matchers.AnyOf object at 0x7f2b5c3a1d36>"

def anyWebURLObjRepr : String := "<matchers.AnyWebURLString object at 0x7f2b5c3a1d37>"

/-- `isinstance(v, int)`: `bool` is a subtype of `int` in Python, so both
integers and booleans pass. -/
def isinstanceInt : PyVal → Bool
  | .intV _ => true
  | .boolV _ => true
  | _ => false

/-- `isinstance(v, str)`. -/
def isinstanceStr : PyVal → Bool
  | .strV _ => true
  | _ => false

/-- `AnyInteger()`: validator `lambda v: isinstance(v, int)`. -/
def AnyInteger.init : Matcher :=
  AnyIf.init (some (fun v => .ok (isinstanceInt v))) anyIntegerObjRepr

/-- `AnyString()`: validator `lambda v: isinstance(v, str)`. -/
def AnyString.init : Matcher :=
  AnyIf.init (some (fun v => .ok (isinstanceStr v))) anyStringObjRepr

/-- `AnyWebURLString()`: validator
`lambda v: isinstance(v, str) and (v.startswith(http) or v.startswith(https))`. -/
def AnyWebURLString.init : Matcher :=
  AnyIf.init (some (fun v => .ok (match v with
    | .strV s => s.startsWith "http://" || s.startsWith "https://"
    | _ => false))) anyWebURLObjRepr

/-- `AnyOf(*items)`: validator `lambda v: v in items` — tuple membership,
i.e. Python `==` against each element — and `description` overridden to
`f"any of {items}"` after the base constructor ran. -/
def AnyOf.init (items : List PyVal) : Matcher :=
  { AnyIf.init (some (fun v => .ok (items.any (fun x => pyEq v x)))) anyOfObjRepr with
    description := "any of " ++ pyTupleStr items }

/-- `AnyStringMatchingRegex(pattern)`: the validator is
`lambda v: pattern.match(v) is not None` over the pattern compiled with
`re.DOTALL`.  The compiled regex engine is the stdlib's, outside this
repository; it is abstracted as `matchFn : String → Bool` (anchored-match
verdict on strings) — on a non-string argument `re.Pattern.match` raises
`TypeError`, which is what the claims exercise. -/
def AnyStringMatchingRegex.init (matchFn : String → Bool) : Matcher :=
  AnyIf.init (some (fun v => match v with
    | .strV s => .ok (matchFn s)
    | _ => .error .typeError)) anyRegexObjRepr

/-- Model of the stdlib pattern compiled from `"^abc"` (used as the
concrete instance in theorems): `match` tests at the start of the string. -/
def reCaretAbc (s : String) : Bool := s.startsWith "abc"

/-- Replace every occurrence of `needle` in `s`, scanning left to right
without overlap — Python `str.replace` (`fuel` bounds the scan; it is
instantiated with the length of `s`, which suffices because each step
consumes at least one character of `s`). -/
def replaceFuel (needle repl : List Char) : Nat → List Char → List Char
  | _, [] => []
  | 0, s => s
  | fuel + 1, c :: rest =>
    if needle ≠ [] ∧ needle.isPrefixOf (c :: rest) then
      repl ++ replaceFuel needle repl fuel (rest.drop (needle.length - 1))
    else
      c :: replaceFuel needle repl fuel rest

def pyReplace (s needle repl : String) : List Char :=
  replaceFuel needle.toList repl.toList s.toList.length s.toList

def isBraceChar (c : Char) : Bool :=
  c == Char.ofNat 123 || c == Char.ofNat 125

/-- Python `str.strip(chars)` for the brace pair: drop leading and trailing
braces. -/
def stripBraces (cs : List Char) : List Char :=
  ((cs.dropWhile isBraceChar).reverse.dropWhile isBraceChar).reverse

def isHexDigitChar (c : Char) : Bool :=
  c.isDigit || (97 ≤ c.toNat && c.toNat ≤ 102) || (65 ≤ c.toNat && c.toNat ≤ 70)

/-- The string normalisation done by the stdlib `uuid.UUID(hex)`
constructor: drop every `urn:` and `uuid:` occurrence, strip surrounding
braces, drop all dashes. -/
def uuidNormalize (s : String) : List Char :=
  let h := String.mk (pyReplace s "urn:" "")
  let h := String.mk (pyReplace h "uuid:" "")
  let h := stripBraces h.toList
  replaceFuel "-".toList [] h.length h

/-- Whether `uuid.UUID(s)` succeeds on the string `s`: the normalised form
must be 32 characters and parse as hexadecimal (`int(hex, 16)`; the exotic
forms `int` also accepts inside 32 characters — sign, `0x` prefix,
underscores, surrounding whitespace — are not modelled, and no claim
exercises them). -/
def uuidParseOk (s : String) : Bool :=
  let h := uuidNormalize s
  h.length == 32 && h.all isHexDigitChar

/-- The stdlib `uuid.UUID(hex=other)` constructor as invoked by
`AnyUUID._validator`: on a string it parses (raising `ValueError` on a bad
format); on anything else — including a `uuid.UUID` instance — its first
step `hex.replace(...)` fails with `AttributeError` because the argument
has no `replace` method. -/
def uuidCtor : PyVal → Except PyErr Unit
  | .strV s => if uuidParseOk s then .ok () else .error .valueError
  | _ => .error .attributeError

/-- `AnyUUID._validator` (the override): reject non-`str`/non-`UUID`
outright; otherwise call `UUID(other)`, turning `ValueError` into `False`
and success into `True` — any other exception (the `AttributeError` above)
propagates, since only `except ValueError` is written. -/
def anyUUIDValidate (other : PyVal) : Except PyErr Bool :=
  if !(isinstanceStr other || (match other with | .uuidV _ => true | _ => false)) then
    .ok false
  else
    match uuidCtor other with
    | .ok _ => .ok true
    | .error .valueError => .ok false
    | .error e => .error e

/-- `AnyUUID()`: the inherited constructor runs with no validator argument;
the class overrides the `_validator` method itself. -/
def AnyUUID.init : Matcher :=
  { AnyIf.init none anyUUIDObjRepr with validate := anyUUIDValidate }

/-- `Unordered.__init__` passes `lambda v: sorted(v) == sorted(items)` to
the base constructor.  The lambda closes over the caller's `items` object
by reference and re-reads it on every comparison, so the instance is
modelled with an `items` field holding the captured list's current
contents; `Unordered.setItems` below models the caller mutating that list
in place after construction. -/
structure Unordered where
  items : List PyVal
  description : String
  actual : ActualState
  actuals : List PyVal

/-- `sorted(v) == sorted(items)` with `items` currently holding
`m.items`: iterate and sort the candidate, sort the captured list, compare
elementwise with Python `==`; a `TypeError` from either `sorted`
propagates. -/
def unorderedValidator (items : List PyVal) (v : PyVal) : Except PyErr Bool :=
  match pyIterate v with
  | .error e => .error e
  | .ok ev =>
    match pySorted ev with
    | .error e => .error e
    | .ok sv =>
      match pySorted items with
      | .error e => .error e
      | .ok si => .ok (pyEqList sv si)

/-- `Unordered(items)`. -/
def Unordered.init (items : List PyVal) : Unordered :=
  { items := items,
    description := unorderedObjRepr,
    actual := .notMatched,
    actuals := [] }

/-- In-place mutation of the caller's list object after construction
(e.g. `lst[:] = new`): the closure sees the new contents because it holds
the same reference. -/
def Unordered.setItems (m : Unordered) (xs : List PyVal) : Unordered :=
  { m with items := xs }

/-- Follows the wording of the spec, not the source (for comparison with
the code's behavior): under snapshot semantics the acceptance test uses
the expected collection as frozen at construction time, unaffected by any
later mutation of the caller's collection object. -/
def unorderedSnapshotValidator (snapshotAtConstruction : List PyVal)
    (v : PyVal) : Except PyErr Bool :=
  unorderedValidator snapshotAtConstruction v

/-- The inherited `compared` property on an `Unordered` instance. -/
def Unordered.compared (m : Unordered) : Bool :=
  match m.actual with
  | .notCompared => false
  | _ => true

/-- The inherited `matched` property on an `Unordered` instance. -/
def Unordered.matched (m : Unordered) : Bool :=
  match m.actual with
  | .matchedVal _ => true
  | _ => false

/-- The inherited `AnyIf.__eq__` executing on an `Unordered` instance:
identical to `Matcher.eq`, with `_validator` being the closure over the
captured list's current contents. -/
def Unordered.eq (m : Unordered) (other : PyVal) : Except PyErr (Bool × Unordered) :=
  match unorderedValidator m.items other with
  | .error e => .error e
  | .ok true => .ok (true, { m with actual := .matchedVal other, actuals := m.actuals ++ [other] })
  | .ok false => .ok (false, { m with actual := .notMatched })

/-- First component (the boolean verdict) of a comparison result. -/
def verdict {α : Type} (r : Except PyErr (Bool × α)) : Except PyErr Bool :=
  r.map Prod.fst

/-- The `actual` attribute of the matcher after a non-raising comparison. -/
def actualAfter (r : Except PyErr (Bool × Matcher)) : Option ActualState :=
  match r with
  | .ok (_, m) => some m.actual
  | .error _ => none

/-- The `matched` accessor read after a non-raising comparison. -/
def matchedAfter (r : Except PyErr (Bool × Matcher)) : Option Bool :=
  match r with
  | .ok (_, m) => some m.matched
  | .error _ => none

/-- The comparison performed by `test_diff` in `src/test_matchers.py`:
`dict.__eq__` compares the two mappings value by value under equal keys;
at each leaf the left value's `__eq__` returns `NotImplemented` against a
matcher, so Python falls back to the reflected call, i.e. the matcher's
`__eq__` applied to the concrete leaf.  Overall equality is the
conjunction of the per-key verdicts. -/
def test_diff_overall : Except PyErr Bool := do
  let r1 ← AnyInteger.init.eq (.intV 123)
  let r2 ← (AnyOf.init [PyVal.intV 456, PyVal.strV "789"]).eq (.strV "456")
  pure (r1.1 && r2.1)

/-- One comparison operation issued by an external equality walker. -/
inductive Op where
  | cmpEq (v : PyVal)
  | cmpNe (v : PyVal)

/-- Execute one comparison against a matcher, keeping only the resulting
state.  When the validator raises, no attribute had been assigned yet, so
the matcher is unchanged. -/
def applyOp (m : Matcher) (op : Op) : Matcher :=
  match op with
  | .cmpEq v =>
    match m.eq v with
    | .ok (_, m2) => m2
    | .error _ => m
  | .cmpNe v =>
    match m.ne v with
    | .ok (_, m2) => m2
    | .error _ => m

/-- A whole sequence of comparisons. -/
def runOps (m : Matcher) (ops : List Op) : Matcher :=
  ops.foldl applyOp m

/-- Reads `m.actual == v`: Python equality between the stored `actual`
attribute and a value (false when a sentinel is stored, since the
sentinels are plain `object()` instances equal only to themselves). -/
def actualPyEqTo (m : Matcher) (v : PyVal) : Bool :=
  match m.actual with
  | .matchedVal a => pyEq a v
  | _ => false

/-- Shadow of `pySorted` on plain integer lists: what CPython `sorted`
computes there. -/
def sortInt (l : List Int) : List Int :=
  List.insertionSort (fun x y => x < y) l

mutual

theorem pyEq_refl : (v : PyVal) → pyEq v v = true
  | .intV _ => by simp [pyEq]
  | .boolV _ => by simp [pyEq]
  | .strV _ => by simp [pyEq]
  | .uuidV _ => by simp [pyEq]
  | .listV xs => by simpa [pyEq] using pyEqList_refl xs

theorem pyEqList_refl : (l : List PyVal) → pyEqList l l = true
  | [] => rfl
  | x :: xs => by simp [pyEqList, pyEq_refl x, pyEqList_refl xs]

end

theorem pyInsert_int (a : Int) (l : List Int) :
    pyInsert (.intV a) (l.map PyVal.intV) =
      .ok ((List.orderedInsert (fun x y => x < y) a l).map PyVal.intV) := by
  induction l with
  | nil => rfl
  | cons y ys ih =>
    by_cases h : a < y
    · simp [pyInsert, pyLt, List.orderedInsert, h]
    · simp [pyInsert, pyLt, List.orderedInsert, h, ih]

theorem pySorted_int (l : List Int) :
    pySorted (l.map PyVal.intV) = .ok ((sortInt l).map PyVal.intV) := by
  induction l with
  | nil => rfl
  | cons x xs ih =>
    simp only [List.map_cons, pySorted, ih, sortInt, List.insertionSort]
    exact pyInsert_int x (List.insertionSort (fun x y => x < y) xs)

theorem pyEqList_int (a : List Int) : ∀ b : List Int,
    pyEqList (a.map PyVal.intV) (b.map PyVal.intV) = decide (a = b) := by
  induction a with
  | nil => intro b; cases b <;> simp [pyEqList]
  | cons x xs ih =>
    intro b
    cases b with
    | nil => simp [pyEqList]
    | cons y ys =>
      by_cases hxy : x = y
      · simp [pyEqList, pyEq, hxy, ih ys]
      · simp [pyEqList, pyEq, hxy]

theorem sorted_orderedInsertLt (a : Int) (l : List Int)
    (h : List.Sorted (· ≤ ·) l) :
    List.Sorted (· ≤ ·) (List.orderedInsert (fun x y => x < y) a l) := by
  induction l with
  | nil => simp
  | cons y ys ih =>
    rw [List.orderedInsert]
    by_cases hlt : a < y
    · rw [if_pos hlt]
      refine List.sorted_cons.mpr ⟨?_, h⟩
      intro b hb
      rcases List.mem_cons.mp hb with hby | hbys
      · exact hby ▸ le_of_lt hlt
      · exact le_trans (le_of_lt hlt) ((List.sorted_cons.mp h).1 b hbys)
    · rw [if_neg hlt]
      obtain ⟨hy, hys⟩ := List.sorted_cons.mp h
      refine List.sorted_cons.mpr ⟨?_, ih hys⟩
      intro b hb
      rcases (List.mem_orderedInsert _).mp hb with hba | hbys
      · exact hba ▸ le_of_not_lt hlt
      · exact hy b hbys

theorem sortInt_sorted (l : List Int) : List.Sorted (· ≤ ·) (sortInt l) := by
  induction l with
  | nil => simp [sortInt]
  | cons x xs ih => exact sorted_orderedInsertLt x (sortInt xs) ih

theorem sortInt_eq_iff (a b : List Int) : sortInt a = sortInt b ↔ List.Perm a b := by
  constructor
  · intro h
    unfold sortInt at h
    exact (List.perm_insertionSort _ a).symm.trans
      (h ▸ List.perm_insertionSort (fun x y => x < y) b)
  · intro h
    exact List.eq_of_perm_of_sorted
      ((List.perm_insertionSort _ a).trans
        (h.trans (List.perm_insertionSort _ b).symm))
      (sortInt_sorted a) (sortInt_sorted b)

theorem eq_preserves_validate (m : Matcher) (v : PyVal) (b : Bool) (m2 : Matcher)
    (h : m.eq v = .ok (b, m2)) : m2.validate = m.validate := by
  unfold Matcher.eq at h
  cases hv : m.validate v with
  | error e => rw [hv] at h; exact absurd h (by simp)
  | ok r =>
    rw [hv] at h
    cases r with
    | true =>
      simp only [Except.ok.injEq, Prod.mk.injEq] at h
      rw [← h.2]
    | false =>
      simp only [Except.ok.injEq, Prod.mk.injEq] at h
      rw [← h.2]

theorem ne_as_eq (m : Matcher) (v : PyVal) (b : Bool) (m2 : Matcher)
    (h : m.ne v = .ok (b, m2)) : m.eq v = .ok (!b, m2) := by
  unfold Matcher.ne at h
  cases he : m.eq v with
  | error e => rw [he] at h; exact absurd h (by simp)
  | ok p =>
    rw [he] at h
    simp only [Except.ok.injEq, Prod.mk.injEq] at h
    obtain ⟨hb, hm⟩ := h
    rw [← hb, ← hm, Bool.not_not]

theorem applyOp_validate (m : Matcher) (op : Op) :
    (applyOp m op).validate = m.validate := by
  cases op with
  | cmpEq v =>
    cases h : m.eq v with
    | error e => simp only [applyOp, h]
    | ok p =>
      obtain ⟨b, m2⟩ := p
      simp only [applyOp, h]
      exact eq_preserves_validate m v b m2 h
  | cmpNe v =>
    cases h : m.ne v with
    | error e => simp only [applyOp, h]
    | ok p =>
      obtain ⟨b, m2⟩ := p
      simp only [applyOp, h]
      exact eq_preserves_validate m v (!b) m2 (ne_as_eq m v b m2 h)

theorem eq_actuals_step (m : Matcher) (v : PyVal) (b : Bool) (m2 : Matcher)
    (h : m.eq v = .ok (b, m2)) :
    m2.actuals = if b then m.actuals ++ [v] else m.actuals := by
  unfold Matcher.eq at h
  cases hv : m.validate v with
  | error e => rw [hv] at h; exact absurd h (by simp)
  | ok r =>
    rw [hv] at h
    cases r with
    | true =>
      simp only [Except.ok.injEq, Prod.mk.injEq] at h
      rw [← h.1, ← h.2, if_pos rfl]
    | false =>
      simp only [Except.ok.injEq, Prod.mk.injEq] at h
      rw [← h.1, ← h.2, if_neg (by simp)]

theorem eq_validated_on_success (m : Matcher) (v : PyVal) (m2 : Matcher)
    (h : m.eq v = .ok (true, m2)) : m.validate v = .ok true := by
  unfold Matcher.eq at h
  cases hv : m.validate v with
  | error e => rw [hv] at h; exact absurd h (by simp)
  | ok r =>
    rw [hv] at h
    cases r with
    | true => rfl
    | false => simp at h

theorem applyOp_actuals (m : Matcher) (op : Op) :
    m.actuals <+: (applyOp m op).actuals
    ∧ ∀ v ∈ (applyOp m op).actuals, v ∈ m.actuals ∨ m.validate v = .ok true := by
  have core : ∀ w : PyVal,
      m.actuals <+: (applyOp m (Op.cmpEq w)).actuals
      ∧ ∀ v ∈ (applyOp m (Op.cmpEq w)).actuals, v ∈ m.actuals ∨ m.validate v = .ok true := by
    intro w
    cases h : m.eq w with
    | error e =>
      simp only [applyOp, h]
      exact ⟨List.prefix_refl _, fun v hv => Or.inl hv⟩
    | ok p =>
      obtain ⟨b, m2⟩ := p
      have hstep := eq_actuals_step m w b m2 h
      cases b with
      | false =>
        simp at hstep
        simp only [applyOp, h]
        rw [hstep]
        exact ⟨List.prefix_refl _, fun v hv => Or.inl hv⟩
      | true =>
        simp at hstep
        simp only [applyOp, h]
        rw [hstep]
        refine ⟨List.prefix_append _ _, fun v hv => ?_⟩
        rcases List.mem_append.mp hv with h1 | h2
        · exact Or.inl h1
        · have hvw : v = w := by simpa using h2
          subst hvw
          exact Or.inr (eq_validated_on_success m v m2 h)
  cases op with
  | cmpEq w => exact core w
  | cmpNe w =>
    have hAgree : applyOp m (Op.cmpNe w) = applyOp m (Op.cmpEq w) := by
      cases h : m.eq w with
      | error e => simp only [applyOp, Matcher.ne, h]
      | ok p =>
        obtain ⟨b, m2⟩ := p
        simp only [applyOp, Matcher.ne, h]
    rw [hAgree]
    exact core w

theorem runOps_actuals (ops : List Op) : ∀ m : Matcher,
    m.actuals <+: (runOps m ops).actuals
    ∧ ∀ v ∈ (runOps m ops).actuals, v ∈ m.actuals ∨ m.validate v = .ok true := by
  induction ops with
  | nil => exact fun m => ⟨List.prefix_refl _, fun v hv => Or.inl hv⟩
  | cons op ops ih =>
    intro m
    have hstep := applyOp_actuals m op
    have hrec := ih (applyOp m op)
    have hval := applyOp_validate m op
    have hrun : runOps m (op :: ops) = runOps (applyOp m op) ops := rfl
    rw [hrun]
    refine ⟨hstep.1.trans hrec.1, fun v hv => ?_⟩
    rcases hrec.2 v hv with h1 | h2
    · exact hstep.2 v h1
    · exact Or.inr (hval ▸ h2)

/-- C1: the claim states that a freshly constructed matcher has `compared =
false` and `matched = false` because `__init__` stores the `_not_compared`
sentinel.  The code instead stores `_not_matched` (`self.actual =
_not_matched` in `AnyIf.__init__`), so on every freshly constructed
matcher — base class and all subclasses — `compared` is already `true`
(`matched` is indeed `false`).  The `_not_compared` sentinel is never
assigned anywhere in the module. -/
theorem matchers_C1_fresh_instance_already_compared :
    (AnyIf.init none anyIfObjRepr).compared = true
    ∧ (AnyIf.init none anyIfObjRepr).matched = false
    ∧ AnyInteger.init.compared = true
    ∧ AnyInteger.init.matched = false
    ∧ AnyString.init.compared = true
    ∧ AnyUUID.init.compared = true
    ∧ (AnyOf.init [PyVal.intV 456, PyVal.strV "789"]).compared = true
    ∧ (AnyStringMatchingRegex.init reCaretAbc).compared = true
    ∧ (Unordered.init [PyVal.intV 1]).compared = true
    ∧ AnyWebURLString.init.compared = true :=
  ⟨rfl, rfl, rfl, rfl, rfl, rfl, rfl, rfl, rfl, rfl⟩

/-- C2: the scenario claimed (and asserted by `test_diff` in
`src/test_matchers.py`) is that `{"foo": 123, "bar": "456"} == {"foo":
AnyInteger(), "bar": AnyOf(456, "789")}` is true with the `AnyOf` capturing
`"456"`.  Evaluating the code: the `foo` leaf matches, but `"456" in (456,
"789")` is false (a `str` equals neither the `int` `456` nor `"789"`), so
the `AnyOf` comparison returns false, its `actual` ends as the
`_not_matched` sentinel, and the overall dictionary equality is false —
the repository's own test assertion fails. -/
theorem matchers_C2_test_diff_fails_on_code :
    verdict (AnyInteger.init.eq (.intV 123)) = .ok true
    ∧ actualAfter (AnyInteger.init.eq (.intV 123))
        = some (ActualState.matchedVal (.intV 123))
    ∧ verdict ((AnyOf.init [PyVal.intV 456, PyVal.strV "789"]).eq (.strV "456")) = .ok false
    ∧ actualAfter ((AnyOf.init [PyVal.intV 456, PyVal.strV "789"]).eq (.strV "456"))
        = some ActualState.notMatched
    ∧ test_diff_overall = .ok false :=
  ⟨rfl, rfl, rfl, rfl, rfl⟩

/-- C3: the claim states that no matcher ever raises from a comparison.
Evaluating the code: the regex matcher's validator calls
`pattern.match(other)` which raises `TypeError` on a non-string; the
unordered matcher calls `sorted(other)` which raises `TypeError` on a
non-iterable; and the UUID matcher, given a `uuid.UUID` instance (admitted
by its own `isinstance` test), calls `UUID(other)` whose first step
`hex.replace(...)` raises `AttributeError`, which the `except ValueError`
clause does not catch.  Each exception propagates out of `__eq__`. -/
theorem matchers_C3_type_mismatch_raises :
    verdict ((AnyStringMatchingRegex.init reCaretAbc).eq (.intV 5))
      = .error PyErr.typeError
    ∧ verdict ((Unordered.init [PyVal.intV 1]).eq (.intV 5))
      = .error PyErr.typeError
    ∧ verdict (AnyUUID.init.eq (.uuidV "12345678-1234-5678-1234-567812345678"))
      = .error PyErr.attributeError :=
  ⟨rfl, rfl, rfl⟩

/-- C4: the claim states that the representation of a never-compared
matcher is the description wrapped in a "not compared" indicator.
Evaluating the code: a freshly constructed `AnyInteger()` holds the
`_not_matched` sentinel (see C1), so `__repr__` takes the compared-but-
not-matched branch and renders the bare description — the "not compared"
indicator never appears (that branch of `__repr__` is unreachable). -/
theorem matchers_C4_fresh_repr_is_bare_description :
    AnyInteger.init.reprStr = anyIntegerObjRepr
    ∧ ¬ (("not compared").toList <:+: AnyInteger.init.reprStr.toList) :=
  ⟨rfl, by decide⟩

/-- C5: the claim states `AnyUUID().equals(u)` is true for every UUID
instance `u` and that an invalid format returns false without raising.
Evaluating the code: on a `uuid.UUID` instance the validator calls
`UUID(other)`, whose `hex.replace(...)` raises `AttributeError` (a `UUID`
has no `replace` method) and only `ValueError` is caught, so the
comparison raises instead of returning true.  The string part of the
claim does hold: `"not-a-uuid"` yields false with `matched` false. -/
theorem matchers_C5_uuid_instance_raises :
    verdict (AnyUUID.init.eq (.uuidV "00000000-0000-0000-0000-000000000000"))
      = .error PyErr.attributeError
    ∧ verdict (AnyUUID.init.eq (.strV "not-a-uuid")) = .ok false
    ∧ matchedAfter (AnyUUID.init.eq (.strV "not-a-uuid")) = some false
    ∧ verdict (AnyUUID.init.eq (.strV "12345678-1234-5678-1234-567812345678"))
      = .ok true :=
  ⟨rfl, rfl, rfl, rfl⟩

/-- C10: `AnyInteger`'s validator is `isinstance(v, int)`, and `bool` is a
subtype of `int` in Python, so both `True` and `False` are accepted. -/
theorem matchers_C10_bool_accepted :
    verdict (AnyInteger.init.eq (.boolV true)) = .ok true
    ∧ verdict (AnyInteger.init.eq (.boolV false)) = .ok true
    ∧ isinstanceInt (.boolV true) = true
    ∧ isinstanceInt (.boolV false) = true :=
  ⟨rfl, rfl, rfl, rfl⟩

/-- C7: for any matcher and value, a successful `equals` leaves `matched`
true, stores the compared value in `actual` (so `actual == v` by the
value's own equality) and appends it as the last element of `actuals`;
a failed validation leaves `matched` false and `compared` true. -/
theorem matchers_C7_eq_postconditions (m : Matcher) (v : PyVal) (b : Bool)
    (m2 : Matcher) (h : m.eq v = .ok (b, m2)) :
    (b = true → m2.matched = true ∧ m2.actual = ActualState.matchedVal v
      ∧ actualPyEqTo m2 v = true ∧ m2.actuals.getLast? = some v)
    ∧ (b = false → m2.matched = false ∧ m2.compared = true) := by
  unfold Matcher.eq at h
  cases hv : m.validate v with
  | error e => rw [hv] at h; exact absurd h (by simp)
  | ok r =>
    rw [hv] at h
    cases r with
    | true =>
      simp only [Except.ok.injEq, Prod.mk.injEq] at h
      obtain ⟨hb, hm⟩ := h
      subst hb
      constructor
      · intro _
        refine ⟨by rw [← hm]; rfl, by rw [← hm], ?_, ?_⟩
        · rw [← hm]
          simpa [actualPyEqTo] using pyEq_refl v
        · rw [← hm]
          exact List.getLast?_concat m.actuals
      · intro hfalse
        exact absurd hfalse (by simp)
    | false =>
      simp only [Except.ok.injEq, Prod.mk.injEq] at h
      obtain ⟨hb, hm⟩ := h
      subst hb
      constructor
      · intro htrue
        exact absurd htrue (by simp)
      · intro _
        exact ⟨by rw [← hm]; rfl, by rw [← hm]; rfl⟩

/-- C7 witness: concrete instantiations of both branches — a successful
`AnyInteger() == 5` and a failed `AnyInteger() == "x"`. -/
theorem matchers_C7_witness :
    (({ AnyInteger.init with
        actual := ActualState.matchedVal (.intV 5),
        actuals := [PyVal.intV 5] } : Matcher).matched = true
      ∧ ({ AnyInteger.init with
        actual := ActualState.matchedVal (.intV 5),
        actuals := [PyVal.intV 5] } : Matcher).actual
          = ActualState.matchedVal (.intV 5)
      ∧ actualPyEqTo { AnyInteger.init with
          actual := ActualState.matchedVal (.intV 5),
          actuals := [PyVal.intV 5] } (.intV 5) = true
      ∧ ([PyVal.intV 5] : List PyVal).getLast? = some (.intV 5))
    ∧ (({ AnyInteger.init with actual := ActualState.notMatched } : Matcher).matched = false
      ∧ ({ AnyInteger.init with actual := ActualState.notMatched } : Matcher).compared = true) :=
  ⟨(matchers_C7_eq_postconditions AnyInteger.init (.intV 5) true
      { AnyInteger.init with
        actual := ActualState.matchedVal (.intV 5),
        actuals := [PyVal.intV 5] } rfl).1 rfl,
   (matchers_C7_eq_postconditions AnyInteger.init (.strV "x") false
      { AnyInteger.init with actual := ActualState.notMatched } rfl).2 rfl⟩

/-- C8: the inequality operation returns exactly the negation of the
equality operation and leaves the matcher in the identical state (same
`actual`, same `actuals`); when equality raises, inequality raises the
same exception. -/
theorem matchers_C8_ne_negates_eq (m : Matcher) (v : PyVal) :
    (∀ b m2, m.eq v = .ok (b, m2) → m.ne v = .ok (!b, m2))
    ∧ (∀ b m2, m.ne v = .ok (b, m2) → m.eq v = .ok (!b, m2))
    ∧ (∀ e, m.eq v = .error e ↔ m.ne v = .error e) := by
  refine ⟨?_, ?_, ?_⟩
  · intro b m2 h
    unfold Matcher.ne
    rw [h]
  · intro b m2 h
    exact ne_as_eq m v b m2 h
  · intro e
    constructor
    · intro h
      unfold Matcher.ne
      rw [h]
    · intro h
      unfold Matcher.ne at h
      cases he : m.eq v with
      | error e2 => rw [he] at h; simpa using h
      | ok p => rw [he] at h; exact absurd h (by simp)

/-- C8 witness: `AnyInteger() != "x"` is `True` (the comparison fails) and
the state mutation is the same one `==` performs. -/
theorem matchers_C8_witness :
    AnyInteger.init.ne (.strV "x")
      = .ok (!false, { AnyInteger.init with actual := ActualState.notMatched }) :=
  (matchers_C8_ne_negates_eq AnyInteger.init (.strV "x")).1 false
    { AnyInteger.init with actual := ActualState.notMatched } rfl

/-- C9: across any sequence of equality/inequality comparisons, `actuals`
is append-only (the old sequence is a prefix of the new one), every element
present after the run either was already there or satisfied the matcher's
validator when it was appended, and a single comparison appends exactly
the compared value on success and nothing on failure. -/
theorem matchers_C9_actuals_append_only (m : Matcher) (ops : List Op) :
    (m.actuals <+: (runOps m ops).actuals)
    ∧ (∀ v ∈ (runOps m ops).actuals, v ∈ m.actuals ∨ m.validate v = .ok true)
    ∧ (∀ v b m2, m.eq v = .ok (b, m2) →
        m2.actuals = if b then m.actuals ++ [v] else m.actuals) :=
  ⟨(runOps_actuals ops m).1, (runOps_actuals ops m).2,
    fun v b m2 h => eq_actuals_step m v b m2 h⟩

/-- C9 witness: a run of `AnyInteger()` against `1`, `"x"`, `2` — the
single-step clause applied at the successful first comparison. -/
theorem matchers_C9_witness :
    ({ AnyInteger.init with
        actual := ActualState.matchedVal (.intV 1),
        actuals := [PyVal.intV 1] } : Matcher).actuals
      = if true then AnyInteger.init.actuals ++ [PyVal.intV 1]
        else AnyInteger.init.actuals :=
  (matchers_C9_actuals_append_only AnyInteger.init
      [Op.cmpEq (.intV 1), Op.cmpEq (.strV "x"), Op.cmpEq (.intV 2)]).2.2
    (.intV 1) true
    { AnyInteger.init with
      actual := ActualState.matchedVal (.intV 1),
      actuals := [PyVal.intV 1] } rfl

/-- C6 counterexample: the claim says mutating the original collection
after constructing the matcher does not change which values the matcher
accepts.  On the code it does: `Unordered([3,1,2])` rejects `[1,2]`, but
after the caller mutates the captured list in place to `[1,2]` the same
matcher accepts `[1,2]` — the validator re-reads the live list on every
comparison — while the snapshot semantics the spec describes would still
reject it. -/
theorem matchers_C6_mutation_changes_acceptance :
    verdict ((Unordered.init [PyVal.intV 3, PyVal.intV 1, PyVal.intV 2]).eq
        (PyVal.listV [PyVal.intV 1, PyVal.intV 2])) = .ok false
    ∧ verdict (((Unordered.init [PyVal.intV 3, PyVal.intV 1, PyVal.intV 2]).setItems
        [PyVal.intV 1, PyVal.intV 2]).eq
        (PyVal.listV [PyVal.intV 1, PyVal.intV 2])) = .ok true
    ∧ unorderedSnapshotValidator [PyVal.intV 3, PyVal.intV 1, PyVal.intV 2]
        (PyVal.listV [PyVal.intV 1, PyVal.intV 2]) = .ok false :=
  ⟨rfl, rfl, rfl⟩

/-- C6 amended: the unordered matcher accepts `other` exactly when
`other`, sorted, equals the captured collection's CURRENT contents sorted
the same way (for integer lists: exactly when `other` is a permutation of
the current contents, whatever the collection held at construction);
in particular `Unordered([3,1,2])` accepts `[2,3,1]` and rejects `[1,2]`
while the underlying list is unchanged. -/
theorem matchers_C6_accepts_permutations_of_current_contents
    (orig now v : List Int) :
    verdict (((Unordered.init (orig.map PyVal.intV)).setItems (now.map PyVal.intV)).eq
        (PyVal.listV (v.map PyVal.intV)))
      = .ok (decide (List.Perm v now)) := by
  have hval : unorderedValidator (now.map PyVal.intV) (PyVal.listV (v.map PyVal.intV))
      = .ok (decide (List.Perm v now)) := by
    simp only [unorderedValidator, pyIterate, pySorted_int, pyEqList_int]
    congr 1
    exact decide_eq_decide.mpr (sortInt_eq_iff v now)
  cases hd : decide (List.Perm v now) with
  | true =>
    rw [hd] at hval
    simp [Unordered.eq, Unordered.setItems, Unordered.init, hval, verdict, hd, Except.map]
  | false =>
    rw [hd] at hval
    simp [Unordered.eq, Unordered.setItems, Unordered.init, hval, verdict, hd, Except.map]
